import Mathlib

/-!
Verification of the criterion-evaluation / aggregation core of the
`authscript` intelligence service against its natural-language
specification.

The Python sources are shallowly embedded:

* floats become rationals (`ℚ`);
* Python dicts keyed by strings become association lists with
  last-assignment-wins update semantics;
* the external reasoning oracle (LLM), the regex engine (`re.search`) and
  the Python `float()` string parser are opaque collaborators of the code
  under verification, so they are passed as explicit function parameters;
* `async` functions are embedded as plain functions of their inputs
  (the concurrency structure is not needed by any value-level claim);
* a Python function that can raise a propagated exception is embedded
  with `Except`.

Embedded modules:
* `src/apps/intelligence/src/reasoning/confidence_scorer.py`
  (`calculate_confidence`, `ScoreResult`);
* `src/apps/intelligence/src/reasoning/evidence_extractor.py`
  (`extract_evidence`, `_check_patterns`, `_check_diagnosis`,
  `_extract_with_llm`, `_build_structured_summary`);
* `src/apps/intelligence/src/llm_client.py` (`chat_completion`);
* `src/apps/intelligence/src/policies/registry.py` (`PolicyRegistry`) and
  `src/apps/intelligence/src/policies/generic_policy.py`
  (`build_generic_policy`);
* `src/apps/intelligence/src/models/policy.py` and
  `src/apps/intelligence/src/models/pa_form.py` (data model).
-/

namespace AuthScript

/-- Evidence status, `Literal["MET", "NOT_MET", "UNCLEAR"]` in
`src/models/pa_form.py`. -/
inductive EvStatus
| MET
| NOT_MET
| UNCLEAR
deriving DecidableEq

/-- `EvidenceItem` from `src/models/pa_form.py`. -/
structure EvidenceItem where
  criterion_id : String
  status : EvStatus
  evidence : String
  source : String
  confidence : ℚ
deriving DecidableEq

/-- `PolicyCriterion` from `src/models/policy.py`. -/
structure PolicyCriterion where
  id : String
  description : String
  weight : ℚ
  required : Bool
  lcd_section : Option String
  bypasses : List String
deriving DecidableEq

/-- `PolicyDefinition` from `src/models/policy.py` (fields not consumed by
the scorer or registry are omitted). -/
structure PolicyDefinition where
  policy_id : String
  policy_name : String
  lcd_reference : Option String
  payer : String
  procedure_codes : List String
  criteria : List PolicyCriterion
deriving DecidableEq

/-- Recommendation labels of `ScoreResult`. -/
inductive Recommendation
| APPROVE
| NEED_INFO
| MANUAL_REVIEW
deriving DecidableEq

/-- `ScoreResult` from `confidence_scorer.py`. -/
structure ScoreResult where
  score : ℚ
  recommendation : Recommendation
deriving DecidableEq

/-- Round-half-to-even on a rational, the rounding mode of Python's
builtin `round`. -/
def pyRoundHalfEven (q : ℚ) : ℤ :=
  let f : ℤ := ⌊q⌋
  let r : ℚ := q - f
  if r < 1/2 then f
  else if 1/2 < r then f + 1
  else if f % 2 = 0 then f else f + 1

/-- Python's `round(q, 2)` (idealized over exact rationals). -/
def pyRound2 (q : ℚ) : ℚ := (pyRoundHalfEven (100 * q) : ℚ) / 100

/-- Lookup in the `weight_map` dict of `calculate_confidence`: the dict is
built by assigning `weight_map[criterion.id] = criterion.weight` in list
order, so for duplicate ids the last criterion wins. -/
def weight_map_get (criteria : List PolicyCriterion) (cid : String) : Option ℚ :=
  (criteria.reverse.find? (fun c => c.id = cid)).map (fun c => c.weight)

/-- Membership test against the `required_ids` set of
`calculate_confidence`. -/
def required_ids_mem (criteria : List PolicyCriterion) (cid : String) : Bool :=
  criteria.any (fun c => c.required && c.id = cid)

/-- Accumulator of the evidence loop in `calculate_confidence`. -/
structure ScoreAcc where
  total_weight : ℚ
  weighted_score : ℚ
  has_not_met : Bool
  has_unclear : Bool
deriving DecidableEq

/-- One iteration of the evidence loop in `calculate_confidence`:
`w = weight_map.get(item.criterion_id, 1.0)` then per-status
accumulation. -/
def scoreStep (criteria : List PolicyCriterion) (acc : ScoreAcc)
    (item : EvidenceItem) : ScoreAcc :=
  let w : ℚ := (weight_map_get criteria item.criterion_id).getD 1
  let acc1 : ScoreAcc := { acc with total_weight := acc.total_weight + w }
  match item.status with
  | .MET => { acc1 with weighted_score := acc1.weighted_score + w * item.confidence }
  | .NOT_MET => { acc1 with has_not_met := true }
  | .UNCLEAR =>
      { acc1 with
        has_unclear := true
        weighted_score := acc1.weighted_score + w * item.confidence * (1/2) }

/-- The full evidence loop of `calculate_confidence`. -/
def scoreLoop (criteria : List PolicyCriterion) (evidence : List EvidenceItem) :
    ScoreAcc :=
  evidence.foldl (scoreStep criteria) ⟨0, 0, false, false⟩

/-- `calculate_confidence` from
`src/apps/intelligence/src/reasoning/confidence_scorer.py`, embedded
branch for branch:
guard for empty evidence or criteria; the weighted loop; the
`total_weight == 0` guard; `required_met`; recommendation selection; and
`round(score, 2)` on the returned score. -/
def calculate_confidence (evidence : List EvidenceItem)
    (policy : PolicyDefinition) : ScoreResult :=
  if evidence = [] ∨ policy.criteria = [] then
    ⟨1/2, .MANUAL_REVIEW⟩
  else
    let acc := scoreLoop policy.criteria evidence
    if acc.total_weight = 0 then
      ⟨1/2, .MANUAL_REVIEW⟩
    else
      let score := acc.weighted_score / acc.total_weight
      let required_met :=
        evidence.all (fun item =>
          !(required_ids_mem policy.criteria item.criterion_id) || item.status == .MET)
      let recommendation : Recommendation :=
        if required_met ∧ ¬acc.has_not_met ∧ ¬acc.has_unclear ∧ (7:ℚ)/10 ≤ score then
          .APPROVE
        else if acc.has_not_met then .NEED_INFO
        else .MANUAL_REVIEW
      ⟨pyRound2 score, recommendation⟩

/-- The pre-rounding score computed by `calculate_confidence` (the value
fed to `round(score, 2)`; on the early-return paths the score is the
constant `0.5` that the code returns directly). -/
def rawScore (evidence : List EvidenceItem) (policy : PolicyDefinition) : ℚ :=
  if evidence = [] ∨ policy.criteria = [] then 1/2
  else
    let acc := scoreLoop policy.criteria evidence
    if acc.total_weight = 0 then 1/2
    else acc.weighted_score / acc.total_weight

/-! ### LLM client (`src/apps/intelligence/src/llm_client.py`) -/

/-- Outcome of one call to the configured provider's `complete` method:
either a returned text, or one of the exception classes distinguished by
the `try/except` chain of `chat_completion`.  The provider is an external
HTTP collaborator, so its behavior on the call is a parameter of the
embedding. -/
inductive ProviderOutcome
| success (text : String)
| timeoutErr
| rateLimitErr
| apiErr (msg : String)
| otherErr (msg : String)
deriving DecidableEq

/-- The one exception class `chat_completion` re-raises
(`openai.RateLimitError`). -/
inductive RateLimitSignal
| rateLimited
deriving DecidableEq

/-- `chat_completion` from `src/apps/intelligence/src/llm_client.py`:
`None` when no provider is configured; otherwise dispatch and map the
provider outcome through the `except` chain — `APITimeoutError` → `None`,
`RateLimitError` → re-raise, `APIError` → `None`, any other `Exception`
→ `None`.  (In the openai library `RateLimitError` subclasses `APIError`;
the source lists the `RateLimitError` clause before the `APIError` clause,
so the re-raise wins, as embedded here.)  The prompt arguments are carried
for shape but the opaque provider outcome already accounts for them. -/
def chat_completion (provider : Option ProviderOutcome)
    (_system_prompt _user_prompt : String) (_temperature : ℚ)
    (_max_tokens : ℕ) : Except RateLimitSignal (Option String) :=
  match provider with
  | none => .ok none
  | some (.success t) => .ok (some t)
  | some .timeoutErr => .ok none
  | some .rateLimitErr => .error .rateLimited
  | some (.apiErr _) => .ok none
  | some (.otherErr _) => .ok none

/-- Substring occurrence test on character lists (used by the modelled
response classifier). -/
def listContainsSub (needle : List Char) : List Char → Bool
  | [] => needle.isEmpty
  | c :: rest => needle.isPrefixOf (c :: rest) || listContainsSub needle rest

/-- Substring occurrence test on strings. -/
def strContainsSub (text sub : String) : Bool :=
  listContainsSub sub.data text.data

/-- Modelled from the spec: the status classifier of the criterion
evaluator (`evaluate_criterion`), which is imported by the repository's
test suite but absent from `src/` (the `evidence_extractor.py` in the
snapshot is a stale version without it).  Ordered keyword matching: the
"not met" pattern is tested first, then "met", then "unclear"; anything
else defaults to UNCLEAR. -/
def classify_status (text : String) : EvStatus :=
  let t := text.toUpper
  if strContainsSub t "NOT MET" || strContainsSub t "NOT_MET" then .NOT_MET
  else if strContainsSub t "MET" then .MET
  else if strContainsSub t "UNCLEAR" then .UNCLEAR
  else .UNCLEAR

/-- Modelled from the spec: the confidence classifier of the criterion
evaluator — "high confidence" marker → 0.9, "low confidence" marker
→ 0.5, otherwise the medium default 0.7. -/
def classify_confidence (text : String) : ℚ :=
  let t := text.toUpper
  if strContainsSub t "HIGH CONFIDENCE" then 9/10
  else if strContainsSub t "LOW CONFIDENCE" then 1/2
  else 7/10

/-- Modelled from the spec: `evaluate_criterion` — build the judgment
prompt from the criterion (description plus LCD section annotation when
present) and the clinical summary, dispatch it through `chat_completion`
(embedded above from `llm_client.py`), classify the returned text, and
degrade a `None` response to an UNCLEAR item with confidence 0.5.  The
rate-limit error of `chat_completion` is not caught, so it propagates to
the caller. -/
def evaluate_criterion (provider : Option ProviderOutcome)
    (criterion : PolicyCriterion) (clinical_summary : String) :
    Except RateLimitSignal EvidenceItem :=
  let lcdPart :=
    match criterion.lcd_section with
    | some s => "LCD section: " ++ s ++ "\n"
    | none => ""
  let prompt :=
    "Evaluate whether the evidence meets this criterion.\nCriterion: " ++
      criterion.description ++ "\n" ++ lcdPart ++ "Clinical data:\n" ++
      clinical_summary
  match chat_completion provider "You are a clinical documentation specialist." prompt 0 500 with
  | .error e => .error e
  | .ok none => .ok ⟨criterion.id, .UNCLEAR, "No response from LLM", "System", 1/2⟩
  | .ok (some text) =>
      .ok ⟨criterion.id, classify_status text, text, "LLM analysis",
        classify_confidence text⟩

/-! ### Evidence extractor
(`src/apps/intelligence/src/reasoning/evidence_extractor.py`) -/

/-- Patient demographics from `src/models/clinical_bundle.py` (the date is
kept as its rendered string, which is all the summary builder uses). -/
structure PatientInfo where
  name : String
  birth_date : Option String
deriving DecidableEq

/-- Clinical condition from `src/models/clinical_bundle.py` (fields the
extractor reads). -/
structure Condition where
  code : String
  display : Option String
deriving DecidableEq

/-- Clinical procedure from `src/models/clinical_bundle.py` (fields the
extractor reads). -/
structure ProcedureRec where
  code : String
  display : Option String
deriving DecidableEq

/-- Clinical observation from `src/models/clinical_bundle.py` (only its
presence/count is read by the summary builder). -/
structure Observation where
  code : String
deriving DecidableEq

/-- `ClinicalBundle` from `src/models/clinical_bundle.py`. -/
structure ClinicalBundle where
  patient_id : String
  patient : Option PatientInfo
  conditions : List Condition
  observations : List Observation
  procedures : List ProcedureRec
  document_texts : List String
deriving DecidableEq

/-- Dict-shaped criterion as consumed by `extract_evidence`
(`criterion["id"]`, `criterion["description"]`,
`criterion.get("evidence_patterns", [])`). -/
structure ExCriterion where
  id : String
  description : String
  evidence_patterns : List String
deriving DecidableEq

/-- Dict-shaped policy as consumed by `extract_evidence`
(`policy.get("criteria", [])` and
`policy.get("diagnosis_codes", {}).get("primary" / "supporting", [])`). -/
structure ExPolicy where
  criteria : List ExCriterion
  diagnosis_primary : List String
  diagnosis_supporting : List String
deriving DecidableEq

/-- Label for one condition in the structured summary:
`f"{c.code} ({c.display or 'Unknown'})"`. -/
def condLabel (c : Condition) : String :=
  c.code ++ " (" ++ c.display.getD "Unknown" ++ ")"

/-- Label for one procedure in the structured summary. -/
def procLabel (p : ProcedureRec) : String :=
  p.code ++ " (" ++ p.display.getD "Unknown" ++ ")"

/-- `_build_structured_summary` from `evidence_extractor.py`. -/
def build_structured_summary (b : ClinicalBundle) : String :=
  let parts : List String :=
    (match b.patient with
     | none => []
     | some p =>
        ["Patient: " ++ p.name] ++
          (match p.birth_date with
           | none => []
           | some d => ["DOB: " ++ d])) ++
    (if b.conditions.isEmpty then []
     else ["Active Conditions: " ++
        String.intercalate ", " (b.conditions.map condLabel)]) ++
    (if b.procedures.isEmpty then []
     else ["Recent Procedures: " ++
        String.intercalate ", " (b.procedures.map procLabel)]) ++
    (if b.observations.isEmpty then []
     else ["Observations: " ++ Nat.repr b.observations.length ++ " results"])
  String.intercalate "\n" parts

/-- The searchable text built by `_check_patterns`: the lower-cased
structured summary, followed by each attached document text lower-cased,
joined with newlines. -/
def search_text (b : ClinicalBundle) : String :=
  b.document_texts.foldl (fun acc t => acc ++ "\n" ++ t.toLower)
    (build_structured_summary b).toLower

/-- The `search_text[max(0, start - 50) : min(len, end + 50)]` context
slice taken around a match (character-list level; Nat subtraction is the
`max(0, ·)` clamp). -/
def context_snippet (text : List Char) (ms me : ℕ) : List Char :=
  let start := ms - 50
  let stop := min text.length (me + 50)
  (text.drop start).take (stop - start)

/-- The pattern loop of `_check_patterns`: first pattern whose `re.search`
(the opaque `reSearch` parameter, returning a match span) hits produces
the `f"...{context}..."` snippet.  `re.search` is Python library code, so
it is a parameter of the embedding. -/
def check_patterns_go (reSearch : String → String → Option (ℕ × ℕ))
    (st : String) : List String → Option String
  | [] => none
  | p :: rest =>
    match reSearch p st with
    | some (ms, me) =>
        some (String.mk (('.' :: '.' :: '.' :: context_snippet st.data ms me) ++
          ['.', '.', '.']))
    | none => check_patterns_go reSearch st rest

/-- `_check_patterns` from `evidence_extractor.py`. -/
def check_patterns (reSearch : String → String → Option (ℕ × ℕ))
    (b : ClinicalBundle) (patterns : List String) : Option String :=
  check_patterns_go reSearch (search_text b) patterns

/-- `_check_diagnosis` from `evidence_extractor.py`.  Python set
intersections and their join order are modelled as first-occurrence-order
deduplicated lists. -/
def check_diagnosis (b : ClinicalBundle) (pol : ExPolicy) : EvidenceItem :=
  let all_valid := pol.diagnosis_primary ++ pol.diagnosis_supporting
  let patient_codes := (b.conditions.map (fun c => c.code)).dedup
  let matching := patient_codes.filter (fun c => c ∈ all_valid)
  if matching ≠ [] then
    let matching_primary := matching.filter (fun c => c ∈ pol.diagnosis_primary)
    if matching_primary ≠ [] then
      ⟨"diagnosis_present", .MET,
        "Primary diagnosis codes found: " ++ String.intercalate ", " matching_primary,
        "FHIR Condition resources", 95/100⟩
    else
      ⟨"diagnosis_present", .MET,
        "Supporting diagnosis codes found: " ++ String.intercalate ", " matching,
        "FHIR Condition resources", 85/100⟩
  else
    ⟨"diagnosis_present", .NOT_MET,
      "No qualifying diagnosis codes found. Patient codes: " ++
        (if patient_codes = [] then "None"
         else String.intercalate ", " patient_codes),
      "FHIR Condition resources", 9/10⟩

/-- Outcome of the per-criterion OpenAI call inside `_extract_with_llm`:
either the response content string, or a raised exception (any class),
caught by the surrounding `except Exception`. -/
inductive LLMOutcome
| response (content : String)
| exception (msg : String)
deriving DecidableEq

/-- Parse state of the response-line loop of `_extract_with_llm`
(status, evidence, confidence with their defaults). -/
structure LLMParse where
  status : EvStatus
  evidence : String
  confidence : ℚ
deriving DecidableEq

/-- One iteration of the line loop of `_extract_with_llm`.  The Python
builtin `float()` string parser is external, so it is the opaque
`pyFloat` parameter (`none` models `ValueError`, which the code
ignores). -/
def parse_line (pyFloat : String → Option ℚ) (st : LLMParse)
    (line : String) : LLMParse :=
  if line.startsWith "STATUS:" then
    let v := ((line.replace "STATUS:" "").trim).toUpper
    if v = "MET" then { st with status := .MET }
    else if v = "NOT_MET" then { st with status := .NOT_MET }
    else if v = "UNCLEAR" then { st with status := .UNCLEAR }
    else st
  else if line.startsWith "EVIDENCE:" then
    { st with evidence := (line.replace "EVIDENCE:" "").trim }
  else if line.startsWith "CONFIDENCE:" then
    match pyFloat ((line.replace "CONFIDENCE:" "").trim) with
    | some c => { st with confidence := c }
    | none => st
  else st

/-- `_extract_with_llm` from `evidence_extractor.py`.  The OpenAI call is
the opaque per-criterion `outcome`; its prompt is built from data already
determined by the criterion and bundle.  The `EvidenceItem` construction
sits inside the same `try` block, and pydantic validates
`confidence ∈ [0, 1]`, so an out-of-range parsed confidence also lands in
the `except Exception` placeholder branch. -/
def extract_with_llm (pyFloat : String → Option ℚ) (outcome : LLMOutcome)
    (criterion : ExCriterion) : EvidenceItem :=
  match outcome with
  | .exception msg =>
      ⟨criterion.id, .UNCLEAR, "LLM analysis failed: " ++ msg, "System", 0⟩
  | .response content =>
      let parsed := (content.splitOn "\n").foldl (parse_line pyFloat)
        ⟨.UNCLEAR, "Unable to determine", 1/2⟩
      if 0 ≤ parsed.confidence ∧ parsed.confidence ≤ 1 then
        ⟨criterion.id, parsed.status, parsed.evidence, "LLM analysis",
          parsed.confidence⟩
      else
        ⟨criterion.id, .UNCLEAR, "LLM analysis failed: confidence validation error",
          "System", 0⟩

/-- The non-pattern branches of the loop body of `extract_evidence`: the
`diagnosis_present` special case, then the LLM path when
`settings.openai_api_key` is set, else the unconfigured placeholder. -/
def extract_step_rest (openai_configured : Bool)
    (pyFloat : String → Option ℚ) (oracle : ExCriterion → LLMOutcome)
    (b : ClinicalBundle) (pol : ExPolicy) (criterion : ExCriterion) :
    EvidenceItem :=
  if criterion.id = "diagnosis_present" then check_diagnosis b pol
  else if openai_configured then
    extract_with_llm pyFloat (oracle criterion) criterion
  else
    ⟨criterion.id, .UNCLEAR, "Unable to determine - LLM not configured",
      "System", 0⟩

/-- The loop body of `extract_evidence` for one criterion: pattern
matching first (`if pattern_evidence:` — Python truthiness, so a `None`
or empty snippet falls through), then the remaining branches. -/
def extract_step (openai_configured : Bool)
    (reSearch : String → String → Option (ℕ × ℕ))
    (pyFloat : String → Option ℚ) (oracle : ExCriterion → LLMOutcome)
    (b : ClinicalBundle) (pol : ExPolicy) (criterion : ExCriterion) :
    EvidenceItem :=
  match check_patterns reSearch b criterion.evidence_patterns with
  | some s =>
      if s = "" then extract_step_rest openai_configured pyFloat oracle b pol criterion
      else ⟨criterion.id, .MET, s, "Pattern matching on clinical data", 85/100⟩
  | none => extract_step_rest openai_configured pyFloat oracle b pol criterion

/-- `extract_evidence` from `evidence_extractor.py`: the loop appends
exactly one evidence item per criterion, in the order of
`policy.get("criteria", [])`. -/
def extract_evidence (openai_configured : Bool)
    (reSearch : String → String → Option (ℕ × ℕ))
    (pyFloat : String → Option ℚ) (oracle : ExCriterion → LLMOutcome)
    (b : ClinicalBundle) (pol : ExPolicy) : List EvidenceItem :=
  pol.criteria.map (extract_step openai_configured reSearch pyFloat oracle b pol)

/-! ### Policy registry (`src/apps/intelligence/src/policies/registry.py`) -/

/-- Python dict assignment `m[k] = v`: replace the binding when the key is
present, else append it. -/
def dictSet (m : List (String × PolicyDefinition)) (k : String)
    (v : PolicyDefinition) : List (String × PolicyDefinition) :=
  if m.any (fun kv => kv.1 = k) then
    m.map (fun kv => if kv.1 = k then (k, v) else kv)
  else m ++ [(k, v)]

/-- Python dict lookup (`k in m` / `m[k]`). -/
def dictGet (m : List (String × PolicyDefinition)) (k : String) :
    Option PolicyDefinition :=
  (m.find? (fun kv => kv.1 = k)).map (fun kv => kv.2)

/-- The `_policies` table of a `PolicyRegistry` instance. -/
structure RegistryState where
  policies : List (String × PolicyDefinition)
deriving DecidableEq

/-- `PolicyRegistry.register`: install the policy for each of its
procedure codes (last registration wins via dict assignment). -/
def register (r : RegistryState) (p : PolicyDefinition) : RegistryState :=
  ⟨p.procedure_codes.foldl (fun m code => dictSet m code p) r.policies⟩

/-- Dict-shaped criterion of the generic fallback policy in
`src/apps/intelligence/src/policies/generic_policy.py`: keys `id`,
`description`, `evidence_patterns`, `required` — and no weight key. -/
structure GenericCriterion where
  id : String
  description : String
  evidence_patterns : List String
  required : Bool
deriving DecidableEq

/-- The dict returned by `build_generic_policy`
(`src/policies/generic_policy.py`): a dict-shaped policy, not a
`PolicyDefinition`.  `diagnosis_codes` is its two sub-lists,
`form_field_mappings` its key/value pairs. -/
structure GenericPolicyDict where
  policy_id : String
  policy_name : String
  payer : String
  procedure_codes : List String
  diagnosis_primary : List String
  diagnosis_supporting : List String
  criteria : List GenericCriterion
  form_field_mappings : List (String × String)
deriving DecidableEq

/-- `build_generic_policy` from
`src/apps/intelligence/src/policies/generic_policy.py`, translated
literally: three criteria (`medical_necessity`, `diagnosis_present`,
`clinical_documentation`), each with its regex `evidence_patterns` and
`required = True`, and no weight fields.  The regex braces of the ICD-10
pattern are written with their character escapes. -/
def build_generic_policy (procedure_code : String) : GenericPolicyDict :=
  { policy_id := "generic-" ++ procedure_code
    policy_name := "Generic Prior Authorization - " ++ procedure_code
    payer := "Generic"
    procedure_codes := [procedure_code]
    diagnosis_primary := []
    diagnosis_supporting := []
    criteria :=
      [⟨"medical_necessity",
        "The requested procedure is medically necessary based on the clinical documentation",
        ["medically necessary", "medical necessity", "clinically indicated",
         "recommended.*procedure", "required.*treatment"],
        true⟩,
       ⟨"diagnosis_present",
        "Valid ICD-10 diagnosis code present supporting the procedure",
        ["[A-Z]\\d\x7b2\x7d\\.?\\d\x7b0,4\x7d", "diagnosis", "diagnosed with"],
        true⟩,
       ⟨"clinical_documentation",
        "Sufficient clinical documentation supports the request",
        ["clinical.*documentation", "medical records", "chart.*notes",
         "history.*physical", "assessment.*plan"],
        true⟩]
    form_field_mappings :=
      [("patient_name", "PatientName"), ("patient_dob", "PatientDOB"),
       ("member_id", "MemberID"), ("diagnosis_primary", "PrimaryDiagnosis"),
       ("diagnosis_secondary", "SecondaryDiagnosis"),
       ("procedure_code", "ProcedureCode"),
       ("clinical_summary", "ClinicalJustification"),
       ("provider_name", "OrderingProviderName"),
       ("provider_npi", "OrderingProviderNPI"), ("facility_name", "FacilityName"),
       ("date_of_service", "RequestedDateOfService")] }

/-- What `PolicyRegistry.resolve` actually returns: its annotation says
`PolicyDefinition`, but on the fallback path it returns the dict built by
`build_generic_policy`, so the embedding returns the sum of the two
shapes. -/
inductive ResolvedPolicy
| registered (p : PolicyDefinition)
| generic (d : GenericPolicyDict)
deriving DecidableEq

/-- `PolicyRegistry.resolve`: the registered policy when the code is in
the table, else a freshly synthesized generic policy.  The method body
performs no assignment, so the embedding returns the table unchanged
alongside the result. -/
def resolve (r : RegistryState) (procedure_code : String) :
    ResolvedPolicy × RegistryState :=
  match dictGet r.policies procedure_code with
  | some p => (.registered p, r)
  | none => (.generic (build_generic_policy procedure_code), r)


/-! ### Helper lemmas -/

theorem check_diagnosis_criterion_id (b : ClinicalBundle) (pol : ExPolicy) :
    (check_diagnosis b pol).criterion_id = "diagnosis_present" := by
  unfold check_diagnosis
  dsimp only
  split_ifs <;> rfl

theorem extract_with_llm_criterion_id (pyFloat : String → Option ℚ)
    (outcome : LLMOutcome) (c : ExCriterion) :
    (extract_with_llm pyFloat outcome c).criterion_id = c.id := by
  unfold extract_with_llm
  cases outcome with
  | exception msg => rfl
  | response content =>
    dsimp only
    split_ifs <;> rfl

theorem extract_step_rest_criterion_id (cfg : Bool)
    (pyFloat : String → Option ℚ) (oracle : ExCriterion → LLMOutcome)
    (b : ClinicalBundle) (pol : ExPolicy) (c : ExCriterion) :
    (extract_step_rest cfg pyFloat oracle b pol c).criterion_id = c.id := by
  unfold extract_step_rest
  split_ifs with h1 h2
  · rw [check_diagnosis_criterion_id, h1]
  · exact extract_with_llm_criterion_id pyFloat (oracle c) c
  · rfl

theorem extract_step_criterion_id (cfg : Bool)
    (reSearch : String → String → Option (ℕ × ℕ))
    (pyFloat : String → Option ℚ) (oracle : ExCriterion → LLMOutcome)
    (b : ClinicalBundle) (pol : ExPolicy) (c : ExCriterion) :
    (extract_step cfg reSearch pyFloat oracle b pol c).criterion_id = c.id := by
  unfold extract_step
  cases h : check_patterns reSearch b c.evidence_patterns with
  | none => exact extract_step_rest_criterion_id cfg pyFloat oracle b pol c
  | some s =>
    dsimp only
    split_ifs with hs
    · exact extract_step_rest_criterion_id cfg pyFloat oracle b pol c
    · rfl

theorem check_patterns_go_hit (reSearch : String → String → Option (ℕ × ℕ))
    (st : String) (ps : List String)
    (h : ∃ p ∈ ps, (reSearch p st).isSome) :
    ∃ s, check_patterns_go reSearch st ps = some s ∧ s ≠ "" := by
  induction ps with
  | nil => simp at h
  | cons p rest ih =>
    unfold check_patterns_go
    cases hm : reSearch p st with
    | some span =>
      obtain ⟨ms, me⟩ := span
      refine ⟨_, rfl, ?_⟩
      intro hc
      have hd := congrArg String.data hc
      simp at hd
    | none =>
      apply ih
      rcases h with ⟨q, hq, hqs⟩
      rcases List.mem_cons.mp hq with rfl | hq2
      · rw [hm] at hqs
        simp at hqs
      · exact ⟨q, hq2, hqs⟩

/-! ### Claim theorems -/

/-- C1: the claim states that a MET criterion declaring `bypasses = [B]`
makes the scorer treat B's evidence with effective status-score 1.0 (as if
MET).  The code has no bypass handling at all: with criterion c1
(weight 0.5, bypasses = [c2]) MET at confidence 0.9 and required criterion
c2 (weight 0.5) NOT_MET, `calculate_confidence` scores c2's NOT_MET as 0,
returning 0.45 (NEED_INFO) instead of a score built from status-score 1.0
for c2 (which would be 0.9; the repository's own test
`test_bypass_treats_bypassed_as_met` requires a score ≥ 0.80 here). -/
theorem C1_code_ignores_bypasses :
    calculate_confidence
      [⟨"c1", .MET, "test", "test", 9/10⟩, ⟨"c2", .NOT_MET, "test", "test", 9/10⟩]
      ⟨"test", "Test", none, "Test", ["72148"],
        [⟨"c1", "Test c1", 1/2, false, none, ["c2"]⟩,
         ⟨"c2", "Test c2", 1/2, true, none, []⟩]⟩
      = ⟨9/20, .NEED_INFO⟩ ∧
    (calculate_confidence
      [⟨"c1", .MET, "test", "test", 9/10⟩, ⟨"c2", .NOT_MET, "test", "test", 9/10⟩]
      ⟨"test", "Test", none, "Test", ["72148"],
        [⟨"c1", "Test c1", 1/2, false, none, ["c2"]⟩,
         ⟨"c2", "Test c2", 1/2, true, none, []⟩]⟩).score < 8/10 := by
  constructor
  · simp [calculate_confidence, scoreLoop, scoreStep, weight_map_get,
      required_ids_mem, pyRound2, pyRoundHalfEven]
    norm_num
  · simp [calculate_confidence, scoreLoop, scoreStep, weight_map_get,
      required_ids_mem, pyRound2, pyRoundHalfEven]
    norm_num

/-- C2: the claim states a hard-gate cap 0.65 − 0.15·N on the score when N
required criteria are NOT_MET and not bypassed.  The code has no such cap:
at the repository's own test input (`test_required_not_met_caps_score`:
five criteria of weight 0.2, four MET at confidence 0.9, the required
fifth NOT_MET), `calculate_confidence` returns 0.72, above the claimed
one-violation cap of 0.50. -/
theorem C2_code_has_no_hard_gate_cap :
    calculate_confidence
      [⟨"c1", .MET, "test", "test", 9/10⟩, ⟨"c2", .MET, "test", "test", 9/10⟩,
       ⟨"c3", .MET, "test", "test", 9/10⟩, ⟨"c4", .MET, "test", "test", 9/10⟩,
       ⟨"c5", .NOT_MET, "test", "test", 9/10⟩]
      ⟨"test", "Test", none, "Test", ["72148"],
        [⟨"c1", "Test c1", 1/5, false, none, []⟩,
         ⟨"c2", "Test c2", 1/5, false, none, []⟩,
         ⟨"c3", "Test c3", 1/5, false, none, []⟩,
         ⟨"c4", "Test c4", 1/5, false, none, []⟩,
         ⟨"c5", "Test c5", 1/5, true, none, []⟩]⟩
      = ⟨18/25, .NEED_INFO⟩ ∧
    ¬ (calculate_confidence
      [⟨"c1", .MET, "test", "test", 9/10⟩, ⟨"c2", .MET, "test", "test", 9/10⟩,
       ⟨"c3", .MET, "test", "test", 9/10⟩, ⟨"c4", .MET, "test", "test", 9/10⟩,
       ⟨"c5", .NOT_MET, "test", "test", 9/10⟩]
      ⟨"test", "Test", none, "Test", ["72148"],
        [⟨"c1", "Test c1", 1/5, false, none, []⟩,
         ⟨"c2", "Test c2", 1/5, false, none, []⟩,
         ⟨"c3", "Test c3", 1/5, false, none, []⟩,
         ⟨"c4", "Test c4", 1/5, false, none, []⟩,
         ⟨"c5", "Test c5", 1/5, true, none, []⟩]⟩).score ≤ 65/100 - 15/100 := by
  constructor
  · simp [calculate_confidence, scoreLoop, scoreStep, weight_map_get,
      required_ids_mem, pyRound2, pyRoundHalfEven]
    norm_num
  · simp [calculate_confidence, scoreLoop, scoreStep, weight_map_get,
      required_ids_mem, pyRound2, pyRoundHalfEven]
    norm_num

/-- C3: the claim states the returned score always lies in [0.05, 1.0] and
that a zero weight denominator yields exactly the floor 0.05.  The code
enforces no floor: with two required criteria of weight 0.5 both NOT_MET
(the repository's own test `test_all_not_met_hits_floor`, which expects
0.05) it returns score 0 < 0.05; and on the `total_weight == 0` path
(criterion of weight 0, matching MET evidence) it returns 0.5, not
0.05. -/
theorem C3_code_has_no_floor :
    calculate_confidence
      [⟨"c1", .NOT_MET, "test", "test", 9/10⟩, ⟨"c2", .NOT_MET, "test", "test", 9/10⟩]
      ⟨"test", "Test", none, "Test", ["72148"],
        [⟨"c1", "Test c1", 1/2, true, none, []⟩,
         ⟨"c2", "Test c2", 1/2, true, none, []⟩]⟩
      = ⟨0, .NEED_INFO⟩ ∧
    (calculate_confidence
      [⟨"c1", .NOT_MET, "test", "test", 9/10⟩, ⟨"c2", .NOT_MET, "test", "test", 9/10⟩]
      ⟨"test", "Test", none, "Test", ["72148"],
        [⟨"c1", "Test c1", 1/2, true, none, []⟩,
         ⟨"c2", "Test c2", 1/2, true, none, []⟩]⟩).score < 5/100 ∧
    calculate_confidence
      [⟨"c1", .MET, "test", "test", 9/10⟩]
      ⟨"test", "Test", none, "Test", ["72148"],
        [⟨"c1", "Test c1", 0, false, none, []⟩]⟩
      = ⟨1/2, .MANUAL_REVIEW⟩ ∧
    (calculate_confidence
      [⟨"c1", .MET, "test", "test", 9/10⟩]
      ⟨"test", "Test", none, "Test", ["72148"],
        [⟨"c1", "Test c1", 0, false, none, []⟩]⟩).score ≠ 5/100 := by
  refine ⟨?_, ?_, ?_, ?_⟩ <;>
    · simp [calculate_confidence, scoreLoop, scoreStep, weight_map_get,
        required_ids_mem, pyRound2, pyRoundHalfEven]
      try norm_num

/-- C4: the claim states the recommendation is a pure function of the
score (APPROVE iff score ≥ 0.80, MANUAL_REVIEW iff 0.50 ≤ score < 0.80,
NEED_INFO iff score < 0.50), and that the spec's scenario (c1 w 0.3
required MET 0.9, c2 w 0.3 required MET 0.9, c3 w 0.4 optional NOT_MET
0.9) yields 0.54 → MANUAL_REVIEW.  The code's recommendation is not
score-threshold based: any NOT_MET item forces NEED_INFO, and APPROVE
additionally requires no NOT_MET/UNCLEAR items and score ≥ 0.7.  On the
scenario the code computes score 0.54 — inside the claim's
MANUAL_REVIEW band — but returns NEED_INFO. -/
theorem C4_recommendation_not_by_thresholds :
    calculate_confidence
      [⟨"c1", .MET, "test", "test", 9/10⟩, ⟨"c2", .MET, "test", "test", 9/10⟩,
       ⟨"c3", .NOT_MET, "test", "test", 9/10⟩]
      ⟨"test", "Test", none, "Test", ["72148"],
        [⟨"c1", "Test c1", 3/10, true, none, []⟩,
         ⟨"c2", "Test c2", 3/10, true, none, []⟩,
         ⟨"c3", "Test c3", 4/10, false, none, []⟩]⟩
      = ⟨27/50, .NEED_INFO⟩ ∧
    1/2 ≤ (calculate_confidence
      [⟨"c1", .MET, "test", "test", 9/10⟩, ⟨"c2", .MET, "test", "test", 9/10⟩,
       ⟨"c3", .NOT_MET, "test", "test", 9/10⟩]
      ⟨"test", "Test", none, "Test", ["72148"],
        [⟨"c1", "Test c1", 3/10, true, none, []⟩,
         ⟨"c2", "Test c2", 3/10, true, none, []⟩,
         ⟨"c3", "Test c3", 4/10, false, none, []⟩]⟩).score ∧
    (calculate_confidence
      [⟨"c1", .MET, "test", "test", 9/10⟩, ⟨"c2", .MET, "test", "test", 9/10⟩,
       ⟨"c3", .NOT_MET, "test", "test", 9/10⟩]
      ⟨"test", "Test", none, "Test", ["72148"],
        [⟨"c1", "Test c1", 3/10, true, none, []⟩,
         ⟨"c2", "Test c2", 3/10, true, none, []⟩,
         ⟨"c3", "Test c3", 4/10, false, none, []⟩]⟩).score < 8/10 := by
  refine ⟨?_, ?_, ?_⟩ <;>
    · simp [calculate_confidence, scoreLoop, scoreStep, weight_map_get,
        required_ids_mem, pyRound2, pyRoundHalfEven]
      try norm_num

/-- C5: the claim states evidence items whose `criterion_id` matches no
policy criterion are skipped entirely (no effect on numerator or
denominator), so the score equals the score with those items removed.
The code instead gives unknown ids the default weight 1.0
(`weight_map.get(item.criterion_id, 1.0)`): with one known criterion c1
(weight 1.0) MET at 0.9 plus one unknown-id NOT_MET item, the score is
0.45, while without the unknown item it is 0.90 — the two results
differ. -/
theorem C5_unknown_ids_not_skipped :
    calculate_confidence
      [⟨"c1", .MET, "test", "test", 9/10⟩, ⟨"zz", .NOT_MET, "test", "test", 9/10⟩]
      ⟨"test", "Test", none, "Test", ["72148"],
        [⟨"c1", "Test c1", 1, false, none, []⟩]⟩
      = ⟨9/20, .NEED_INFO⟩ ∧
    calculate_confidence
      [⟨"c1", .MET, "test", "test", 9/10⟩]
      ⟨"test", "Test", none, "Test", ["72148"],
        [⟨"c1", "Test c1", 1, false, none, []⟩]⟩
      = ⟨9/10, .APPROVE⟩ ∧
    (calculate_confidence
      [⟨"c1", .MET, "test", "test", 9/10⟩, ⟨"zz", .NOT_MET, "test", "test", 9/10⟩]
      ⟨"test", "Test", none, "Test", ["72148"],
        [⟨"c1", "Test c1", 1, false, none, []⟩]⟩).score ≠
    (calculate_confidence
      [⟨"c1", .MET, "test", "test", 9/10⟩]
      ⟨"test", "Test", none, "Test", ["72148"],
        [⟨"c1", "Test c1", 1, false, none, []⟩]⟩).score := by
  refine ⟨?_, ?_, ?_⟩ <;>
    · simp [calculate_confidence, scoreLoop, scoreStep, weight_map_get,
        required_ids_mem, pyRound2, pyRoundHalfEven]
      try norm_num

/-- C9: for every input the score placed in the `ScoreResult` is the
round-to-2-decimals of the raw weighted average (`round(score, 2)` in the
source; the early-return constants 0.5 are their own rounding), and hence
every returned score is an integer multiple of 0.01. -/
theorem C9_score_rounded_to_two_decimals (ev : List EvidenceItem)
    (p : PolicyDefinition) :
    (calculate_confidence ev p).score = pyRound2 (rawScore ev p) ∧
    ∃ k : ℤ, (calculate_confidence ev p).score = (k : ℚ) / 100 := by
  have hhalf : pyRound2 (1/2) = 1/2 := by
    norm_num [pyRound2, pyRoundHalfEven]
  unfold calculate_confidence rawScore
  split
  · exact ⟨hhalf.symm, 50, by norm_num⟩
  · dsimp only
    split
    · exact ⟨hhalf.symm, 50, by norm_num⟩
    · exact ⟨rfl, pyRoundHalfEven _, rfl⟩

/-- C6: for every provider outcome, `evaluate_criterion` (oracle dispatch
through the embedded `chat_completion`) returns an error exactly when the
provider raised the rate-limit exception — timeouts, API errors and other
exceptions are absorbed into an evidence item locally — so the rate-limit
condition is the only failure class that propagates to the evaluator's
caller. -/
theorem C6_only_rate_limit_propagates (provider : Option ProviderOutcome)
    (c : PolicyCriterion) (s : String) :
    (evaluate_criterion provider c s = .error .rateLimited ↔
      provider = some .rateLimitErr) ∧
    (provider ≠ some .rateLimitErr →
      ∃ item, evaluate_criterion provider c s = .ok item) := by
  unfold evaluate_criterion chat_completion
  cases provider with
  | none => simp
  | some o => cases o <;> simp

/-- C6 witness: with a rate-limited provider the evaluation errors out;
with a timed-out provider it returns an item. -/
theorem C6_only_rate_limit_propagates_witness :
    evaluate_criterion (some .rateLimitErr)
      ⟨"crit-1", "desc", 1/2, true, none, []⟩ "data" = .error .rateLimited ∧
    ∃ item, evaluate_criterion (some .timeoutErr)
      ⟨"crit-1", "desc", 1/2, true, none, []⟩ "data" = .ok item :=
  ⟨(C6_only_rate_limit_propagates (some .rateLimitErr)
      ⟨"crit-1", "desc", 1/2, true, none, []⟩ "data").1.mpr rfl,
   (C6_only_rate_limit_propagates (some .timeoutErr)
      ⟨"crit-1", "desc", 1/2, true, none, []⟩ "data").2 (by decide)⟩

/-- C7: one evaluation pass of `extract_evidence` returns exactly one
evidence item per policy criterion, with the `criterion_id` sequence equal
to the policy's criteria order; and a per-criterion oracle failure on the
LLM path yields the placeholder item (UNCLEAR, confidence 0.0, failure
reason in the evidence text) in that criterion's position rather than a
missing entry. -/
theorem C7_one_item_per_criterion_in_order (cfg : Bool)
    (reSearch : String → String → Option (ℕ × ℕ))
    (pyFloat : String → Option ℚ) (oracle : ExCriterion → LLMOutcome)
    (b : ClinicalBundle) (pol : ExPolicy) :
    (extract_evidence cfg reSearch pyFloat oracle b pol).map
        (fun e => e.criterion_id) = pol.criteria.map (fun c => c.id) ∧
    (extract_evidence cfg reSearch pyFloat oracle b pol).length =
      pol.criteria.length ∧
    (∀ i : ℕ, ∀ hi : i < pol.criteria.length, ∀ msg : String,
      (check_patterns reSearch b
          (pol.criteria.get ⟨i, hi⟩).evidence_patterns = none ∨
       check_patterns reSearch b
          (pol.criteria.get ⟨i, hi⟩).evidence_patterns = some "") →
      (pol.criteria.get ⟨i, hi⟩).id ≠ "diagnosis_present" →
      cfg = true →
      oracle (pol.criteria.get ⟨i, hi⟩) = .exception msg →
      (extract_evidence cfg reSearch pyFloat oracle b pol)[i]? =
        some ⟨(pol.criteria.get ⟨i, hi⟩).id, .UNCLEAR,
          "LLM analysis failed: " ++ msg, "System", 0⟩) := by
  refine ⟨?_, ?_, ?_⟩
  · simp only [extract_evidence, List.map_map]
    exact List.map_congr_left fun c _ =>
      extract_step_criterion_id cfg reSearch pyFloat oracle b pol c
  · simp [extract_evidence]
  · intro i hi msg hpat hdiag hcfg horacle
    subst hcfg
    have hrest : extract_step_rest true pyFloat oracle b pol
        (pol.criteria.get ⟨i, hi⟩) =
        ⟨(pol.criteria.get ⟨i, hi⟩).id, .UNCLEAR,
          "LLM analysis failed: " ++ msg, "System", 0⟩ := by
      unfold extract_step_rest
      rw [if_neg hdiag, if_pos rfl]
      unfold extract_with_llm
      rw [horacle]
    have hstep : extract_step true reSearch pyFloat oracle b pol
        (pol.criteria.get ⟨i, hi⟩) =
        ⟨(pol.criteria.get ⟨i, hi⟩).id, .UNCLEAR,
          "LLM analysis failed: " ++ msg, "System", 0⟩ := by
      unfold extract_step
      rcases hpat with h | h <;> rw [h]
      · exact hrest
      · dsimp only
        rw [if_pos rfl]
        exact hrest
    have hidx : (extract_evidence true reSearch pyFloat oracle b pol)[i]? =
        some (extract_step true reSearch pyFloat oracle b pol
          (pol.criteria.get ⟨i, hi⟩)) := by
      simp [extract_evidence, List.getElem?_map,
        List.getElem?_eq_getElem hi, List.get_eq_getElem]
    rw [hidx, hstep]

/-- C7 witness: two criteria, LLM oracle always failing — the output has
the criteria ids in order and the failure placeholder at position 1. -/
theorem C7_one_item_per_criterion_in_order_witness :
    (extract_evidence true (fun _ _ => none) (fun _ => none)
        (fun _ => .exception "boom") ⟨"p", none, [], [], [], []⟩
        ⟨[⟨"crit-1", "d1", []⟩, ⟨"crit-2", "d2", []⟩], [], []⟩).map
        (fun e => e.criterion_id) = ["crit-1", "crit-2"] ∧
    (extract_evidence true (fun _ _ => none) (fun _ => none)
        (fun _ => .exception "boom") ⟨"p", none, [], [], [], []⟩
        ⟨[⟨"crit-1", "d1", []⟩, ⟨"crit-2", "d2", []⟩], [], []⟩)[1]? =
      some ⟨"crit-2", .UNCLEAR, "LLM analysis failed: boom", "System", 0⟩ := by
  have h := C7_one_item_per_criterion_in_order true (fun _ _ => none)
    (fun _ => none) (fun _ => .exception "boom") ⟨"p", none, [], [], [], []⟩
    ⟨[⟨"crit-1", "d1", []⟩, ⟨"crit-2", "d2", []⟩], [], []⟩
  refine ⟨h.1, ?_⟩
  have h2 := h.2.2 1 (by decide) "boom" (Or.inl rfl) (by decide) rfl rfl
  exact h2

/-- C8 counterexample: resolving "99999" against an empty registry
returns the dict-shaped generic fallback whose three criteria are ALL
marked required (none carries a weight field at all), so the claimed
shape — third criterion not required, weights ≈0.4/0.3/0.3 — is false on
the code. -/
theorem C8_generic_fallback_counterexample :
    (resolve ⟨[]⟩ "99999").1 = .generic (build_generic_policy "99999") ∧
    (build_generic_policy "99999").criteria.map (fun c => c.required) =
      [true, true, true] ∧
    ¬ ∃ c ∈ (build_generic_policy "99999").criteria, c.required = false := by
  refine ⟨rfl, rfl, ?_⟩
  intro hc
  rcases hc with ⟨c, hmem, hreq⟩
  simp [build_generic_policy] at hmem
  rcases hmem with h | h | h <;> rw [h] at hreq <;> simp at hreq

/-- C8 (amended): resolving an unregistered procedure code returns the
synthesized dict-shaped generic fallback — id `generic-<identifier>`, the
identifier among its procedure codes, exactly three criteria
(`medical_necessity`, `diagnosis_present`, `clinical_documentation`), all
three required and none carrying a weight — and leaves the registry's
table unchanged. -/
theorem C8_generic_fallback_amended (r : RegistryState) (code : String)
    (h : dictGet r.policies code = none) :
    (resolve r code).1 = .generic (build_generic_policy code) ∧
    (build_generic_policy code).policy_id = "generic-" ++ code ∧
    code ∈ (build_generic_policy code).procedure_codes ∧
    (build_generic_policy code).criteria.length = 3 ∧
    (build_generic_policy code).criteria.map (fun c => (c.id, c.required)) =
      [("medical_necessity", true), ("diagnosis_present", true),
       ("clinical_documentation", true)] ∧
    (resolve r code).2 = r := by
  unfold resolve
  rw [h]
  refine ⟨rfl, rfl, ?_, rfl, rfl, rfl⟩
  simp [build_generic_policy]

/-- C8 witness: resolving "99999" against an empty registry. -/
theorem C8_generic_fallback_amended_witness :
    (resolve ⟨[]⟩ "99999").1 = .generic (build_generic_policy "99999") ∧
    (build_generic_policy "99999").policy_id = "generic-" ++ "99999" ∧
    "99999" ∈ (build_generic_policy "99999").procedure_codes ∧
    (build_generic_policy "99999").criteria.length = 3 ∧
    (build_generic_policy "99999").criteria.map (fun c => (c.id, c.required)) =
      [("medical_necessity", true), ("diagnosis_present", true),
       ("clinical_documentation", true)] ∧
    (resolve ⟨[]⟩ "99999").2 = ⟨[]⟩ :=
  C8_generic_fallback_amended ⟨[]⟩ "99999" rfl

/-- C10: when a criterion carries evidence patterns and some pattern's
`re.search` hits the built search text (the lower-cased structured summary
plus lower-cased document texts), the evaluation pass emits for that
criterion a MET item with confidence 0.85 and source "Pattern matching on
clinical data", and the emitted item is independent of the LLM
configuration flag, the float parser and the LLM oracle — the reasoning
oracle is not consulted for that criterion. -/
theorem C10_pattern_match_bypasses_oracle (cfg cfg2 : Bool)
    (reSearch : String → String → Option (ℕ × ℕ))
    (pyFloat pyFloat2 : String → Option ℚ)
    (oracle oracle2 : ExCriterion → LLMOutcome)
    (b : ClinicalBundle) (pol : ExPolicy) (i : ℕ)
    (hi : i < pol.criteria.length)
    (_hne : (pol.criteria.get ⟨i, hi⟩).evidence_patterns ≠ [])
    (hmatch : ∃ p ∈ (pol.criteria.get ⟨i, hi⟩).evidence_patterns,
      (reSearch p (search_text b)).isSome) :
    (∃ s, s ≠ "" ∧
      (extract_evidence cfg reSearch pyFloat oracle b pol)[i]? =
        some ⟨(pol.criteria.get ⟨i, hi⟩).id, .MET, s,
          "Pattern matching on clinical data", 85/100⟩) ∧
    (extract_evidence cfg reSearch pyFloat oracle b pol)[i]? =
      (extract_evidence cfg2 reSearch pyFloat2 oracle2 b pol)[i]? := by
  obtain ⟨s, hs, hsne⟩ := check_patterns_go_hit reSearch (search_text b)
    (pol.criteria.get ⟨i, hi⟩).evidence_patterns hmatch
  have hstep : ∀ cfg3 : Bool, ∀ pyFloat3 : String → Option ℚ,
      ∀ oracle3 : ExCriterion → LLMOutcome,
      extract_step cfg3 reSearch pyFloat3 oracle3 b pol
          (pol.criteria.get ⟨i, hi⟩) =
        ⟨(pol.criteria.get ⟨i, hi⟩).id, .MET, s,
          "Pattern matching on clinical data", 85/100⟩ := by
    intro cfg3 pyFloat3 oracle3
    unfold extract_step check_patterns
    rw [hs]
    dsimp only
    rw [if_neg hsne]
  have hidx : ∀ cfg3 : Bool, ∀ pyFloat3 : String → Option ℚ,
      ∀ oracle3 : ExCriterion → LLMOutcome,
      (extract_evidence cfg3 reSearch pyFloat3 oracle3 b pol)[i]? =
        some (extract_step cfg3 reSearch pyFloat3 oracle3 b pol
          (pol.criteria.get ⟨i, hi⟩)) := by
    intro cfg3 pyFloat3 oracle3
    simp [extract_evidence, List.getElem?_map,
      List.getElem?_eq_getElem hi, List.get_eq_getElem]
  refine ⟨⟨s, hsne, ?_⟩, ?_⟩
  · rw [hidx, hstep]
  · rw [hidx, hstep, hidx, hstep]

/-- C10 witness: a single criterion with pattern "pain" matched by the
regex engine — the emitted item is MET at 0.85 from pattern matching, for
two different oracles and configuration flags. -/
theorem C10_pattern_match_bypasses_oracle_witness :
    (∃ s, s ≠ "" ∧
      (extract_evidence true (fun p _ => if p = "pain" then some (0, 4) else none)
          (fun _ => none) (fun _ => .response "x") ⟨"p", none, [], [], [], []⟩
          ⟨[⟨"crit-1", "d", ["pain"]⟩], [], []⟩)[0]? =
        some ⟨"crit-1", .MET, s, "Pattern matching on clinical data", 85/100⟩) ∧
    (extract_evidence true (fun p _ => if p = "pain" then some (0, 4) else none)
        (fun _ => none) (fun _ => .response "x") ⟨"p", none, [], [], [], []⟩
        ⟨[⟨"crit-1", "d", ["pain"]⟩], [], []⟩)[0]? =
      (extract_evidence false (fun p _ => if p = "pain" then some (0, 4) else none)
        (fun _ => none) (fun _ => .exception "y") ⟨"p", none, [], [], [], []⟩
        ⟨[⟨"crit-1", "d", ["pain"]⟩], [], []⟩)[0]? := by
  have h := C10_pattern_match_bypasses_oracle true false
    (fun p _ => if p = "pain" then some (0, 4) else none)
    (fun _ => none) (fun _ => none) (fun _ => .response "x")
    (fun _ => .exception "y") ⟨"p", none, [], [], [], []⟩
    ⟨[⟨"crit-1", "d", ["pain"]⟩], [], []⟩ 0 (by decide) (by simp)
    ⟨"pain", by simp, by simp⟩
  exact h

end AuthScript

